import Mathlib

/-!
# Verification of the incident-dashboard pipeline (src/app.py)

Shallow embedding of the data engine of the dashboard: the loader
(`load_data`, app.py lines 91-110), the filter engine (the `mask` /
`filtered_df` computation, lines 133-148), the empty-view guard
(lines 155-157) and the aggregator (KPIs at lines 162-165, the bar-chart
counts at line 225 and the trend series at line 241).

Pandas dataframes become lists of records; a boolean mask combined with
`df.loc[mask]` becomes `List.filter`; `Series.mode()` (which returns the
most frequent values sorted ascending) becomes a sorted list of modes, and
the `[0]` subscript becomes `List.head?` (`none` models the `KeyError`
raised on an empty mode series); `value_counts` and `groupby(...).size()`
become dedup-count-sort pipelines; exceptions that the source catches
become `Option` failure values. String comparison (`df['day'] >= str(d)`
compares ISO day strings pointwise) is embedded as an executable
lexicographic order on the character data, proved below to agree with the
linear order on `String`.
-/

/-- A timestamp as produced by `pd.to_datetime` on the `date` column. -/
structure Timestamp where
  year : Nat
  month : Nat
  day : Nat
  hour : Nat
  minute : Nat
  second : Nat
deriving Repr, DecidableEq

/-- Chronological sort key: a strictly monotone encoding of a calendar
timestamp (components in their calendar ranges) into `Nat`. -/
def Timestamp.key (t : Timestamp) : Nat :=
  ((((t.year * 13 + t.month) * 32 + t.day) * 24 + t.hour) * 60 + t.minute) * 60 + t.second

/-- Chronological order on timestamps, via the sort key. -/
def Timestamp.chronLE (a b : Timestamp) : Prop :=
  a.key ≤ b.key

instance : DecidableRel Timestamp.chronLE :=
  fun a b => inferInstanceAs (Decidable (a.key ≤ b.key))

/-- One row of the raw CSV file: the five columns the app reads
(`date`, `zone`, `crime_type`, `latitude`, `longitude`), all still text
or plain numbers, before `load_data` derives anything. -/
structure RawRecord where
  date : String
  zone : String
  crime_type : String
  latitude : Int
  longitude : Int
deriving Repr, DecidableEq

/-- A processed incident record: one row of the dataframe returned by
`load_data`, after `pd.to_datetime`, `dt.hour` and the stringified
`dt.date` column have been added (app.py lines 101-106). -/
structure Record where
  date : Timestamp
  hour : Nat
  day : String
  zone : String
  crime_type : String
  latitude : Int
  longitude : Int
deriving Repr, DecidableEq

/-- Lexicographic `≤` on character lists: the order Python and pandas use
to compare the ISO `day` strings of app.py line 136. -/
def lexLe : List Char → List Char → Bool
  | [], _ => true
  | _ :: _, [] => false
  | c :: cs, d :: ds => if c < d then true else if d < c then false else lexLe cs ds

/-- Executable lexicographic `≤` on strings. -/
def strLe (a b : String) : Bool :=
  lexLe a.data b.data

/-- The lexicographic string order as a (decidable) relation. -/
def strLeP (a b : String) : Prop :=
  strLe a b = true

instance : DecidableRel strLeP :=
  fun a b => inferInstanceAs (Decidable (strLe a b = true))

/-- Split a character list at every occurrence of a one-character
separator, keeping empty pieces: `String.splitOn` for the separators
`"-"`, `":"` and `" "` that the date parser needs. -/
def splitOnChar (sep : Char) : List Char → List (List Char)
  | [] => [[]]
  | c :: rest =>
    match splitOnChar sep rest with
    | [] => [[c]]
    | g :: gs => if c == sep then [] :: g :: gs else (c :: g) :: gs

/-- Accumulate the value of a digit string; any non-digit character makes
the whole field unparseable. -/
def digitsVal : List Char → Nat → Option Nat
  | [], acc => some acc
  | c :: rest, acc =>
    if c.isDigit then digitsVal rest (acc * 10 + (c.toNat - 48)) else none

/-- Parse one numeric field of a date string (`String.toNat?` semantics:
nonempty, all digits). -/
def parseField (cs : List Char) : Option Nat :=
  match cs with
  | [] => none
  | _ :: _ => digitsVal cs 0

/-- Parse a `YYYY-MM-DD` date part. Models the date half of
`pd.to_datetime` on ISO-formatted input: anything that is not three
dash-separated numbers with a calendar-plausible month and day fails. -/
def parseDatePart (cs : List Char) : Option (Nat × Nat × Nat) :=
  match splitOnChar '-' cs with
  | [y, m, d] => do
    let yn ← parseField y
    let mn ← parseField m
    let dn ← parseField d
    if 1 ≤ mn ∧ mn ≤ 12 ∧ 1 ≤ dn ∧ dn ≤ 31 then some (yn, mn, dn) else none
  | _ => none

/-- Parse a `HH:MM:SS` (or `HH:MM`) time part; out-of-range components
fail, as they do under `pd.to_datetime`. -/
def parseTimePart (cs : List Char) : Option (Nat × Nat × Nat) :=
  match splitOnChar ':' cs with
  | [h, m, sec] => do
    let hn ← parseField h
    let mn ← parseField m
    let sn ← parseField sec
    if hn ≤ 23 ∧ mn ≤ 59 ∧ sn ≤ 59 then some (hn, mn, sn) else none
  | [h, m] => do
    let hn ← parseField h
    let mn ← parseField m
    if hn ≤ 23 ∧ mn ≤ 59 then some (hn, mn, 0) else none
  | _ => none

/-- `pd.to_datetime` on one textual date value (ISO format, date alone or
date plus time-of-day); failure models the parse exception. -/
def parseTimestamp (s : String) : Option Timestamp :=
  match splitOnChar ' ' s.data with
  | [d] => (parseDatePart d).map fun yd => ⟨yd.1, yd.2.1, yd.2.2, 0, 0, 0⟩
  | [d, t] => do
    let yd ← parseDatePart d
    let hm ← parseTimePart t
    pure ⟨yd.1, yd.2.1, yd.2.2, hm.1, hm.2.1, hm.2.2⟩
  | _ => none

/-- Left-pad a numeral to two digits, as `str(date.date())` does. -/
def pad2 (n : Nat) : String :=
  if n < 10 then "0" ++ toString n else toString n

/-- Left-pad a numeral to four digits. -/
def pad4 (n : Nat) : String :=
  if n < 10 then "000" ++ toString n
  else if n < 100 then "00" ++ toString n
  else if n < 1000 then "0" ++ toString n
  else toString n

/-- `str(ts.date())`: the `day` column value derived from a timestamp
(app.py line 106). -/
def dayString (t : Timestamp) : String :=
  pad4 t.year ++ "-" ++ pad2 t.month ++ "-" ++ pad2 t.day

/-- The per-row processing of `load_data` (app.py lines 101-106): parse the
`date` column, derive `hour` and the string `day`. `none` models the
exception `pd.to_datetime` raises on an unparseable value. -/
def processRow (r : RawRecord) : Option Record :=
  (parseTimestamp r.date).map fun t =>
    { date := t, hour := t.hour, day := dayString t,
      zone := r.zone, crime_type := r.crime_type,
      latitude := r.latitude, longitude := r.longitude }

/-- What `pd.read_csv` finds at one candidate path: the file may be
present but unreadable as a table (a parser exception) or a sequence of
raw rows. -/
inductive CsvFile where
  | malformed : CsvFile
  | rows : List RawRecord → CsvFile
deriving Repr, DecidableEq

/-- The file system as `load_data` sees it: the primary candidate path
`crime_data.csv` and the fallback path `crime-dashboard/crime_data.csv`
(app.py lines 96-98), each possibly absent (`none` raises
`FileNotFoundError`). -/
structure FS where
  primary : Option CsvFile
  fallback : Option CsvFile
deriving Repr, DecidableEq

/-- The inner try/except of `load_data` (app.py lines 95-98): read the
primary path; only on `FileNotFoundError` fall back to the subfolder
path. A malformed primary file is returned as-is (its parser exception is
not a `FileNotFoundError`, so the fallback is not consulted). `none`
means both reads raised `FileNotFoundError`. -/
def readCandidates (fs : FS) : Option CsvFile :=
  match fs.primary with
  | some f => some f
  | none => fs.fallback

/-- `load_data` (app.py lines 91-110): read a candidate file, process every
row, and on ANY exception — file missing everywhere, malformed file, or an
unparseable date — return the empty dataframe (the outer
`except Exception: return pd.DataFrame()`). -/
def load_data (fs : FS) : List Record :=
  match readCandidates fs with
  | none => []
  | some CsvFile.malformed => []
  | some (CsvFile.rows rs) =>
    match rs.mapM processRow with
    | none => []
    | some recs => recs

/-- The operator's temporal-window selection, as `st.date_input` hands it
to the filter code (app.py lines 133-142): either a single date object or
a tuple of date objects (dates are carried as their `str(...)` form, the
ISO day string the comparisons use). -/
inductive DateSel where
  | single : String → DateSel
  | tuple : List String → DateSel
deriving Repr, DecidableEq

/-- The operator's selections: temporal window, sectors, offense codes
(app.py lines 125-129). -/
structure Criteria where
  dates : DateSel
  zones : List String
  crimes : List String
deriving Repr, DecidableEq

/-- The date part of the filter mask (app.py lines 133-142): a 2-tuple is
an inclusive `start <= day <= end` range, a 1-tuple is equality, any other
tuple arity (the degenerate zero-date input included) matches everything,
and a bare date is equality. -/
def dateMask (sel : DateSel) (day : String) : Bool :=
  match sel with
  | DateSel.tuple [a, b] => strLe a day && strLe day b
  | DateSel.tuple [a] => day == a
  | DateSel.tuple _ => true
  | DateSel.single d => day == d

/-- The full boolean mask for one row (app.py lines 133-145): date window
AND `zone.isin(zones)` AND `crime_type.isin(crimes)`. -/
def mask (c : Criteria) (r : Record) : Bool :=
  dateMask c.dates r.day && c.zones.contains r.zone && c.crimes.contains r.crime_type

/-- `filtered_df = df.loc[mask]` (app.py line 146): the subset of rows
satisfying the mask, in original order. -/
def filtered_df (df : List Record) (c : Criteria) : List Record :=
  df.filter (mask c)

/-! ## Aggregator -/

/-- The maximum frequency of any value in a list (0 for the empty list). -/
def maxCount [DecidableEq α] (l : List α) : Nat :=
  (l.map fun x => l.count x).foldr max 0

/-- `Series.mode()`: the list of most-frequent values, sorted ascending
(pandas returns the modes in sorted order); `r` is the order of the
column's value type. -/
def modeList [DecidableEq α] (r : α → α → Prop) [DecidableRel r] (l : List α) : List α :=
  (l.dedup.filter fun x => l.count x == maxCount l).insertionSort r

/-- `Series.mode()[0]`: the first (hence least) mode. `none` models the
`KeyError` raised by the `[0]` subscript when the series is empty. -/
def mode0 [DecidableEq α] (r : α → α → Prop) [DecidableRel r] (l : List α) : Option α :=
  (modeList r l).head?

/-- `total = len(filtered_df)` (app.py line 162). -/
def total (fd : List Record) : Nat :=
  fd.length

/-- `risk_zone = filtered_df['zone'].mode()[0]` (app.py line 163). -/
def risk_zone (fd : List Record) : Option String :=
  mode0 strLeP (fd.map fun r => r.zone)

/-- `primary_code = filtered_df['crime_type'].mode()[0]` (app.py
line 164). -/
def primary_code (fd : List Record) : Option String :=
  mode0 strLeP (fd.map fun r => r.crime_type)

/-- `peak_h = f"{filtered_df['hour'].mode()[0]}:00"` (app.py line 165). -/
def peak_h (fd : List Record) : Option String :=
  (mode0 (fun a b : Nat => a ≤ b) (fd.map fun r => r.hour)).map
    fun h => toString h ++ ":00"

/-- `filtered_df['crime_type'].value_counts()` (app.py line 225): each
distinct crime type with its frequency, sorted descending by frequency. -/
def counts (fd : List Record) : List (String × Nat) :=
  (((fd.map fun r => r.crime_type).dedup.map
      fun t => (t, (fd.map fun r => r.crime_type).count t)).insertionSort
    fun a b => b.2 ≤ a.2)

/-- `trend = filtered_df.groupby('date').size()` (app.py line 241): the
distinct values of the full `date` TIMESTAMP column (not the derived `day`
column), sorted ascending as `groupby` sorts its keys, each paired with
its number of occurrences. -/
def trend (fd : List Record) : List (Timestamp × Nat) :=
  (((fd.map fun r => r.date).dedup).insertionSort Timestamp.chronLE).map
    fun t => (t, (fd.map fun r => r.date).count t)

/-- The aggregate outputs handed to the rendering widgets when the view is
nonempty (app.py lines 160-253). -/
structure Stats where
  totalCount : Nat
  riskZone : String
  primaryCode : String
  peakHour : String
  typeCounts : List (String × Nat)
  trendSeries : List (Timestamp × Nat)
deriving Repr, DecidableEq

/-- What the page does after the filter step: either the offline halt
(`st.error` + `st.stop`, app.py lines 155-157) or the dashboard body. -/
inductive Page where
  | offline : Page
  | dashboard : Stats → Page
deriving Repr, DecidableEq

/-- The KPI/chart computations of app.py lines 162-165, 225 and 241,
sequenced after the empty guard. A `none` models the `KeyError` a
`mode()[0]` would raise on an empty view — the failure the guard makes
unreachable. -/
def buildStats (fd : List Record) : Option Stats := do
  let z ← risk_zone fd
  let c ← primary_code fd
  let h ← peak_h fd
  pure ⟨total fd, z, c, h, counts fd, trend fd⟩

/-- The page flow of app.py lines 112-165: load gives `df`; the sidebar
computes `filtered_df` only when `df` is nonempty (lines 121, 147-148);
an empty `filtered_df` halts with the offline error (lines 155-157), and
only a nonempty view reaches the KPI computations. -/
def renderPage (df : List Record) (c : Criteria) : Option Page :=
  let fd := if df.isEmpty then [] else filtered_df df c
  if fd.isEmpty then some Page.offline
  else (buildStats fd).map Page.dashboard

/-- Modelled from the spec (§4.3): "`daily_series`: mapping from each
distinct `day` present in the view to its occurrence count, ordered
chronologically ascending." Used only to compare the claimed shape of the
trend series with what app.py line 241 computes. -/
def dailySeriesSpec (fd : List Record) : List (String × Nat) :=
  (((fd.map fun r => r.day).dedup).insertionSort strLeP).map
    fun d => (d, (fd.map fun r => r.day).count d)

/-- The deterministic tie-break contract for one mode computation: `m`
occurs in the column, has maximal frequency, and is the least value, in
the column type's order, among the values tied for maximal frequency. -/
def isLowestMode [DecidableEq α] [LE α] (xs : List α) (m : α) : Prop :=
  m ∈ xs ∧ (∀ y ∈ xs, xs.count y ≤ xs.count m) ∧
    (∀ y ∈ xs, xs.count y = xs.count m → m ≤ y)

/-- The three-record data set of the spec's §8 scenario (already in
processed form; all three timestamps are at midnight, so `day` and `date`
agree up to formatting). -/
def scenarioRecords : List Record :=
  [⟨⟨2024, 1, 1, 0, 0, 0⟩, 0, "2024-01-01", "A", "theft", 10, 20⟩,
   ⟨⟨2024, 1, 1, 0, 0, 0⟩, 0, "2024-01-01", "B", "theft", 11, 21⟩,
   ⟨⟨2024, 1, 2, 0, 0, 0⟩, 0, "2024-01-02", "A", "assault", 12, 22⟩]

/-- The §8 scenario criteria: `date_range` (2024-01-01, 2024-01-01),
zones `{A, B}`, crime types `{theft, assault}`. -/
def scenarioCriteria : Criteria :=
  ⟨DateSel.tuple ["2024-01-01", "2024-01-01"], ["A", "B"], ["theft", "assault"]⟩

/-- One well-formed processed record, used to instantiate general
theorems at a concrete input. -/
def sampleRecord : Record :=
  ⟨⟨2024, 1, 1, 0, 0, 0⟩, 0, "2024-01-01", "A", "theft", 10, 20⟩

/-- Two records on the same calendar day at different hours: the input
separating grouping by timestamp from grouping by day. -/
def sameDayRecords : List Record :=
  [⟨⟨2024, 1, 1, 5, 0, 0⟩, 5, "2024-01-01", "A", "theft", 10, 20⟩,
   ⟨⟨2024, 1, 1, 9, 0, 0⟩, 9, "2024-01-01", "B", "theft", 11, 21⟩]

/-! ## Order lemmas: the executable string order is the string order -/

theorem lexLe_iff_not_lex (as bs : List Char) :
    lexLe as bs = true ↔ ¬ List.Lex (· < ·) bs as := by
  induction as generalizing bs with
  | nil =>
    simp only [lexLe, true_iff]
    exact fun h => List.Lex.not_nil_right _ _ h
  | cons c cs ih =>
    cases bs with
    | nil =>
      simp only [lexLe, Bool.false_eq_true, false_iff, not_not]
      exact List.Lex.nil
    | cons d ds =>
      simp only [lexLe]
      rcases lt_trichotomy c d with hlt | heq | hgt
      · simp only [if_pos hlt, true_iff]
        intro h
        cases h with
        | cons h => exact lt_irrefl _ hlt
        | rel h => exact absurd hlt (asymm h)
      · subst heq
        simp only [if_neg (lt_irrefl c), ih]
        constructor
        · intro h hcon
          cases hcon with
          | cons h2 => exact h h2
          | rel h2 => exact lt_irrefl _ h2
        · intro h h2
          exact h (List.Lex.cons h2)
      · have hnc : ¬ c < d := asymm hgt
        simp only [if_neg hnc, if_pos hgt, Bool.false_eq_true, false_iff, not_not]
        exact List.Lex.rel hgt

/-- The executable lexicographic order agrees with the linear order on
`String`: the comparisons of app.py line 136 are the standard dictionary
order on the ISO day strings. -/
theorem strLe_iff_le (a b : String) : strLe a b = true ↔ a ≤ b := by
  rw [strLe, lexLe_iff_not_lex]
  constructor
  · intro h
    by_contra hab
    have hba : b < a := lt_of_not_le hab
    exact h (String.lt_iff_toList_lt.mp hba)
  · intro h hcon
    have : b < a := String.lt_iff_toList_lt.mpr hcon
    exact absurd h (not_le_of_lt this)

theorem strLeP_iff_le (a b : String) : strLeP a b ↔ a ≤ b :=
  strLe_iff_le a b

theorem strLeP_total (a b : String) : strLeP a b ∨ strLeP b a := by
  rw [strLeP_iff_le, strLeP_iff_le]
  exact le_total a b

theorem strLeP_trans (a b c : String) : strLeP a b → strLeP b c → strLeP a c := by
  rw [strLeP_iff_le, strLeP_iff_le, strLeP_iff_le]
  exact le_trans

theorem chronLE_total (a b : Timestamp) : a.chronLE b ∨ b.chronLE a :=
  Nat.le_total a.key b.key

theorem chronLE_trans (a b c : Timestamp) :
    a.chronLE b → b.chronLE c → a.chronLE c :=
  Nat.le_trans

/-! ## Mode lemmas -/

theorem le_foldr_max {ns : List Nat} {a : Nat} (h : a ∈ ns) :
    a ≤ ns.foldr max 0 := by
  induction ns with
  | nil => cases h
  | cons b bs ih =>
    simp only [List.foldr_cons]
    rcases List.mem_cons.mp h with rfl | h2
    · exact le_max_left _ _
    · exact le_trans (ih h2) (le_max_right _ _)

theorem foldr_max_mem_or (ns : List Nat) :
    ns.foldr max 0 ∈ ns ∨ ns.foldr max 0 = 0 := by
  induction ns with
  | nil => right; rfl
  | cons b bs ih =>
    simp only [List.foldr_cons]
    rcases le_total (bs.foldr max 0) b with hle | hle
    · left
      rw [max_eq_left hle]
      exact List.mem_cons_self b bs
    · rw [max_eq_right hle]
      rcases ih with hmem | hzero
      · exact Or.inl (List.mem_cons_of_mem _ hmem)
      · rw [hzero]
        right; rfl

theorem count_le_maxCount [DecidableEq α] (l : List α) (y : α) :
    l.count y ≤ maxCount l := by
  by_cases hy : y ∈ l
  · exact le_foldr_max (List.mem_map_of_mem (fun x => l.count x) hy)
  · rw [List.count_eq_zero_of_not_mem hy]
    exact Nat.zero_le _

theorem maxCount_attained [DecidableEq α] {l : List α} (h : l ≠ []) :
    ∃ x ∈ l, l.count x = maxCount l := by
  rcases foldr_max_mem_or (l.map fun x => l.count x) with hmem | hzero
  · rcases List.mem_map.mp hmem with ⟨x, hx, hcx⟩
    exact ⟨x, hx, hcx⟩
  · exfalso
    rcases List.exists_mem_of_ne_nil l h with ⟨x, hx⟩
    have h1 : 0 < l.count x := List.count_pos_iff.mpr hx
    have h2 : l.count x ≤ maxCount l := count_le_maxCount l x
    rw [maxCount, hzero] at h2
    omega

theorem mem_modeList [DecidableEq α] (r : α → α → Prop) [DecidableRel r]
    (l : List α) (x : α) :
    x ∈ modeList r l ↔ x ∈ l ∧ l.count x = maxCount l := by
  rw [modeList, List.mem_insertionSort, List.mem_filter, List.mem_dedup]
  simp only [beq_iff_eq]

theorem modeList_ne_nil [DecidableEq α] (r : α → α → Prop) [DecidableRel r]
    {l : List α} (h : l ≠ []) : modeList r l ≠ [] := by
  rcases maxCount_attained h with ⟨x, hx, hcx⟩
  intro hnil
  have : x ∈ modeList r l := (mem_modeList r l x).mpr ⟨hx, hcx⟩
  rw [hnil] at this
  cases this

/-- What `mode()[0]` returns on a nonempty series: a value of the series
of maximum frequency, and the `r`-least among all values tied for that
maximum. -/
theorem mode0_spec [DecidableEq α] (r : α → α → Prop) [DecidableRel r]
    [IsTotal α r] [IsTrans α r] {l : List α} (h : l ≠ []) :
    ∃ m, mode0 r l = some m ∧ m ∈ l ∧ l.count m = maxCount l ∧
      (∀ y ∈ l, l.count y ≤ l.count m) ∧
      (∀ y ∈ l, l.count y = l.count m → r m y) := by
  have hne := modeList_ne_nil r h
  rcases List.exists_cons_of_ne_nil hne with ⟨m, rest, hml⟩
  have hsorted : (modeList r l).Sorted r := List.sorted_insertionSort r _
  have hm : m ∈ modeList r l := by rw [hml]; exact List.mem_cons_self _ _
  rcases (mem_modeList r l m).mp hm with ⟨hml2, hmc⟩
  refine ⟨m, ?_, hml2, hmc, ?_, ?_⟩
  · rw [mode0, hml]; rfl
  · intro y _
    rw [hmc]
    exact count_le_maxCount l y
  · intro y hy hcy
    have hyml : y ∈ modeList r l := (mem_modeList r l y).mpr ⟨hy, by rw [hcy, hmc]⟩
    rw [hml] at hyml hsorted
    rcases List.mem_cons.mp hyml with rfl | hrest
    · rcases IsTotal.total (r := r) y y with hr | hr <;> exact hr
    · exact (List.pairwise_cons.mp hsorted).1 y hrest

/-! ## Pipeline helper lemmas -/

theorem mem_filtered_df (df : List Record) (c : Criteria) (r : Record) :
    r ∈ filtered_df df c ↔ r ∈ df ∧ mask c r = true :=
  List.mem_filter

theorem mode0_isSome [DecidableEq α] (r : α → α → Prop) [DecidableRel r]
    {l : List α} (h : l ≠ []) : ∃ m, mode0 r l = some m := by
  have hne := modeList_ne_nil r h
  rcases List.exists_cons_of_ne_nil hne with ⟨m, rest, hml⟩
  exact ⟨m, by rw [mode0, hml]; rfl⟩

theorem buildStats_isSome {fd : List Record} (h : fd ≠ []) :
    ∃ s, buildStats fd = some s := by
  rcases mode0_isSome strLeP (l := fd.map fun r => r.zone)
    (by simpa [List.map_eq_nil_iff] using h) with ⟨z, hz⟩
  rcases mode0_isSome strLeP (l := fd.map fun r => r.crime_type)
    (by simpa [List.map_eq_nil_iff] using h) with ⟨ct, hct⟩
  rcases mode0_isSome (fun a b : Nat => a ≤ b) (l := fd.map fun r => r.hour)
    (by simpa [List.map_eq_nil_iff] using h) with ⟨hh, hhh⟩
  refine ⟨⟨total fd, z, ct, toString hh ++ ":00", counts fd, trend fd⟩, ?_⟩
  simp [buildStats, risk_zone, primary_code, peak_h, hz, hct, hhh]

/-! ## The claims -/

/-- C1: the claim states the loader fails with `DataUnavailable` when the
file is missing at every candidate path and with `DataMalformed` on a
parse failure, never returning a silent empty success. The code does the
opposite: both failure classes collapse to an empty record set returned
as a success value (the `except Exception: return pd.DataFrame()` of
app.py lines 109-110). This theorem evaluates the code at both failing
inputs. -/
theorem load_failure_returns_empty_success :
    load_data ⟨none, none⟩ = [] ∧
    load_data ⟨some CsvFile.malformed, none⟩ = [] :=
  ⟨rfl, rfl⟩

/-- C2: the pipeline always yields a page (never the `KeyError` of an
empty-mode subscript); an empty filtered view halts at the offline signal
before any mode computation; deselecting all zones yields the empty view
without error. -/
theorem empty_view_halts_before_mode (df : List Record) (c : Criteria) :
    (∃ p, renderPage df c = some p) ∧
    (filtered_df df c = [] → renderPage df c = some Page.offline) ∧
    (c.zones = [] → filtered_df df c = []) := by
  refine ⟨?_, ?_, ?_⟩
  · by_cases hdf : df.isEmpty
    · exact ⟨Page.offline, by simp [renderPage, hdf]⟩
    · by_cases hfd : (filtered_df df c).isEmpty
      · exact ⟨Page.offline, by simp [renderPage, hdf, hfd]⟩
      · have hne : filtered_df df c ≠ [] := by
          simpa [List.isEmpty_iff] using hfd
        rcases buildStats_isSome hne with ⟨s, hs⟩
        refine ⟨Page.dashboard s, ?_⟩
        simp [renderPage, hdf, hfd, hs]
  · intro h
    by_cases hdf : df.isEmpty <;> simp [renderPage, hdf, h]
  · intro h
    simp [filtered_df, List.filter_eq_nil_iff, mask, h]

theorem empty_view_halts_before_mode_witness :
    (filtered_df [sampleRecord] ⟨DateSel.tuple [], [], []⟩ = [] ∧
      (⟨DateSel.tuple [], [], []⟩ : Criteria).zones = []) ∧
    renderPage [sampleRecord] ⟨DateSel.tuple [], [], []⟩ = some Page.offline ∧
    filtered_df [sampleRecord] ⟨DateSel.tuple [], [], []⟩ = [] :=
  ⟨⟨by decide, rfl⟩,
    (empty_view_halts_before_mode [sampleRecord] _).2.1 (by decide),
    (empty_view_halts_before_mode [sampleRecord] _).2.2 rfl⟩

/-- C3: the date predicate of the filter: a single date matches by
equality on `day`; a (start, end) pair matches inclusively on both ends
(and no record outside the range appears in the view); zero supplied
dates match every record. -/
theorem date_predicate_of_filter (df : List Record) (zs cs : List String)
    (r : Record) :
    (∀ d, r ∈ filtered_df df ⟨DateSel.single d, zs, cs⟩ ↔
        r ∈ df ∧ r.day = d ∧ r.zone ∈ zs ∧ r.crime_type ∈ cs) ∧
    (∀ a b, r ∈ filtered_df df ⟨DateSel.tuple [a, b], zs, cs⟩ ↔
        r ∈ df ∧ (a ≤ r.day ∧ r.day ≤ b) ∧ r.zone ∈ zs ∧ r.crime_type ∈ cs) ∧
    (r ∈ filtered_df df ⟨DateSel.tuple [], zs, cs⟩ ↔
        r ∈ df ∧ r.zone ∈ zs ∧ r.crime_type ∈ cs) := by
  refine ⟨fun d => ?_, fun a b => ?_, ?_⟩ <;>
    simp [filtered_df, List.mem_filter, mask, dateMask, Bool.and_eq_true,
      List.elem_iff, beq_iff_eq, strLe_iff_le, and_assoc]

/-- C4: a record is in the filtered view iff it is in the store and
passes the date window AND the zone membership AND the crime-type
membership; on the §8 scenario the view is exactly the first two records,
`total` is 2, the modal crime type is `"theft"` and the trend series,
keyed by day, is exactly `("2024-01-01", 2)`. -/
theorem filter_conjunction_and_scenario :
    (∀ (df : List Record) (c : Criteria) (r : Record),
        r ∈ filtered_df df c ↔
          r ∈ df ∧ dateMask c.dates r.day = true ∧
            r.zone ∈ c.zones ∧ r.crime_type ∈ c.crimes) ∧
    filtered_df scenarioRecords scenarioCriteria = scenarioRecords.take 2 ∧
    total (filtered_df scenarioRecords scenarioCriteria) = 2 ∧
    primary_code (filtered_df scenarioRecords scenarioCriteria) = some "theft" ∧
    (trend (filtered_df scenarioRecords scenarioCriteria)).map
        (fun p => (dayString p.1, p.2)) = [("2024-01-01", 2)] := by
  refine ⟨fun df c r => ?_, by decide, by decide, by decide, by decide⟩
  simp [filtered_df, List.mem_filter, mask, Bool.and_eq_true, List.elem_iff,
    and_assoc]

/-- C5: on every nonempty view each of the three mode computations
returns a value of maximal frequency that is the least, in the column's
natural order, among the values tied for the maximum — the same
deterministic tie-break rule (`isLowestMode`) for all three. -/
theorem mode_tiebreak_lowest (fd : List Record) (h : fd ≠ []) :
    (∃ z, risk_zone fd = some z ∧ isLowestMode (fd.map fun r => r.zone) z) ∧
    (∃ ct, primary_code fd = some ct ∧
      isLowestMode (fd.map fun r => r.crime_type) ct) ∧
    (∃ hh, peak_h fd = some (toString hh ++ ":00") ∧
      isLowestMode (fd.map fun r => r.hour) hh) := by
  haveI : IsTotal String strLeP := ⟨strLeP_total⟩
  haveI : IsTrans String strLeP := ⟨strLeP_trans⟩
  haveI : IsTotal Nat (fun a b : Nat => a ≤ b) := ⟨Nat.le_total⟩
  haveI : IsTrans Nat (fun a b : Nat => a ≤ b) := ⟨fun _ _ _ => Nat.le_trans⟩
  refine ⟨?_, ?_, ?_⟩
  · rcases mode0_spec strLeP (l := fd.map fun r => r.zone)
      (by simpa [List.map_eq_nil_iff] using h) with ⟨m, hm, hmem, _, hmax, htie⟩
    exact ⟨m, hm, hmem, hmax,
      fun y hy hcy => (strLeP_iff_le m y).mp (htie y hy hcy)⟩
  · rcases mode0_spec strLeP (l := fd.map fun r => r.crime_type)
      (by simpa [List.map_eq_nil_iff] using h) with ⟨m, hm, hmem, _, hmax, htie⟩
    exact ⟨m, hm, hmem, hmax,
      fun y hy hcy => (strLeP_iff_le m y).mp (htie y hy hcy)⟩
  · rcases mode0_spec (fun a b : Nat => a ≤ b) (l := fd.map fun r => r.hour)
      (by simpa [List.map_eq_nil_iff] using h) with ⟨m, hm, hmem, _, hmax, htie⟩
    exact ⟨m, by simp [peak_h, hm], hmem, hmax, htie⟩

theorem mode_tiebreak_lowest_witness :
    (sameDayRecords ≠ []) ∧
    ((∃ z, risk_zone sameDayRecords = some z ∧
        isLowestMode (sameDayRecords.map fun r => r.zone) z) ∧
     (∃ ct, primary_code sameDayRecords = some ct ∧
        isLowestMode (sameDayRecords.map fun r => r.crime_type) ct) ∧
     (∃ hh, peak_h sameDayRecords = some (toString hh ++ ":00") ∧
        isLowestMode (sameDayRecords.map fun r => r.hour) hh)) :=
  ⟨by decide, mode_tiebreak_lowest sameDayRecords (by decide)⟩

/-- C6, counterexample: the claim says the trend series maps each
distinct DAY present in the view to its count. On two records of the same
day at hours 5 and 9, the spec-shaped series has the single entry
`("2024-01-01", 2)`, but app.py line 241 groups by the full `date`
timestamp and produces two entries whose day labels coincide. -/
theorem trend_not_grouped_by_day :
    dailySeriesSpec sameDayRecords = [("2024-01-01", 2)] ∧
    (trend sameDayRecords).map (fun p => (dayString p.1, p.2)) =
      [("2024-01-01", 1), ("2024-01-01", 1)] := by
  constructor
  · decide
  · decide

/-- C6, amended: the trend series maps each distinct full `date`
timestamp present in the view (not the derived calendar day) to its
occurrence count, with entries in chronологically ascending key order and
no duplicate keys. -/
theorem trend_groups_by_timestamp (fd : List Record) :
    ((trend fd).map Prod.fst).Pairwise Timestamp.chronLE ∧
    ((trend fd).map Prod.fst).Nodup ∧
    (∀ t n, (t, n) ∈ trend fd ↔
      t ∈ fd.map (fun r => r.date) ∧ n = (fd.map fun r => r.date).count t) := by
  have hkeys : (trend fd).map Prod.fst =
      ((fd.map fun r => r.date).dedup).insertionSort Timestamp.chronLE := by
    rw [trend, List.map_map]
    exact List.map_id _
  refine ⟨?_, ?_, ?_⟩
  · rw [hkeys]
    haveI : IsTotal Timestamp Timestamp.chronLE := ⟨chronLE_total⟩
    haveI : IsTrans Timestamp Timestamp.chronLE := ⟨chronLE_trans⟩
    exact List.sorted_insertionSort _ _
  · rw [hkeys]
    exact (List.perm_insertionSort _ _).symm.nodup
      (List.nodup_dedup _)
  · intro t n
    simp only [trend, List.mem_map, List.mem_insertionSort, List.mem_dedup,
      Prod.mk.injEq]
    constructor
    · rintro ⟨a, ha, rfl, rfl⟩
      exact ⟨ha, rfl⟩
    · rintro ⟨ht, rfl⟩
      exact ⟨t, ht, rfl, rfl⟩

/-- C7: the values of the category counts sum to the total, and the
values of the trend series sum to the total: each grouping partitions the
filtered view. -/
theorem grouping_sums_to_total (fd : List Record) :
    ((counts fd).map Prod.snd).sum = total fd ∧
    ((trend fd).map Prod.snd).sum = total fd := by
  constructor
  · have hperm := List.perm_insertionSort
      (r := fun a b : String × Nat => b.2 ≤ a.2)
      ((fd.map fun r => r.crime_type).dedup.map
        fun t => (t, (fd.map fun r => r.crime_type).count t))
    calc ((counts fd).map Prod.snd).sum
        = (((fd.map fun r => r.crime_type).dedup.map
            fun t => (t, (fd.map fun r => r.crime_type).count t)).map
              Prod.snd).sum := (hperm.map Prod.snd).sum_eq
      _ = ((fd.map fun r => r.crime_type).dedup.map
            fun t => (fd.map fun r => r.crime_type).count t).sum := by
          rw [List.map_map]; rfl
      _ = (fd.map fun r => r.crime_type).length :=
          List.sum_map_count_dedup_eq_length _
      _ = fd.length := List.length_map _ _
  · have hperm := List.perm_insertionSort (r := Timestamp.chronLE)
      ((fd.map fun r => r.date).dedup)
    calc ((trend fd).map Prod.snd).sum
        = (((fd.map fun r => r.date).dedup.insertionSort Timestamp.chronLE).map
            fun t => (fd.map fun r => r.date).count t).sum := by
          rw [trend, List.map_map]; rfl
      _ = ((fd.map fun r => r.date).dedup.map
            fun t => (fd.map fun r => r.date).count t).sum :=
          (hperm.map fun t => (fd.map fun r => r.date).count t).sum_eq
      _ = (fd.map fun r => r.date).length :=
          List.sum_map_count_dedup_eq_length _
      _ = fd.length := List.length_map _ _

/-- C8: the loader consults the primary path first and the fallback
subdirectory path second, in that fixed order; with the primary path
missing and a loadable fallback present, loading succeeds with exactly
the fallback's records. -/
theorem loader_fallback_order (f : CsvFile) (g : Option CsvFile) :
    readCandidates ⟨some f, g⟩ = some f ∧
    readCandidates ⟨none, g⟩ = g ∧
    (∀ (rs : List RawRecord) (recs : List Record),
      rs.mapM processRow = some recs →
        load_data ⟨none, some (CsvFile.rows rs)⟩ = recs) := by
  refine ⟨rfl, rfl, fun rs recs h => ?_⟩
  simp only [load_data, readCandidates, h]

theorem loader_fallback_order_witness :
    ([⟨"2024-01-01", "A", "theft", 10, 20⟩] : List RawRecord).mapM processRow =
      some [⟨⟨2024, 1, 1, 0, 0, 0⟩, 0, "2024-01-01", "A", "theft", 10, 20⟩] ∧
    load_data ⟨none, some (CsvFile.rows [⟨"2024-01-01", "A", "theft", 10, 20⟩])⟩ =
      [⟨⟨2024, 1, 1, 0, 0, 0⟩, 0, "2024-01-01", "A", "theft", 10, 20⟩] :=
  ⟨by decide,
    (loader_fallback_order CsvFile.malformed none).2.2 _ _ (by decide)⟩

/-- C9: the claim states an empty filtered result after a successful load
is a distinct "no results" state and that only the load-failure state
blocks rendering. In the code both situations reach the same
`SYSTEM OFFLINE` halt (app.py lines 155-157): a failed load and a
successful one-record load whose zones were all deselected produce the
identical page state, and both stop rendering. -/
theorem empty_filter_state_equals_offline_state :
    renderPage (load_data ⟨none, none⟩) ⟨DateSel.tuple [], [], ["theft"]⟩ =
      some Page.offline ∧
    renderPage [sampleRecord] ⟨DateSel.tuple [], [], ["theft"]⟩ =
      some Page.offline := by
  constructor
  · decide
  · decide

/-- C10: `load_data` is total over the embedded file-system conditions:
for every combination of missing, malformed and row-carrying candidate
files it returns a plain value, and every failure path — both paths
missing, a malformed file, or rows whose dates fail to parse — returns
the empty record set. -/
theorem load_data_total (g : Option CsvFile) (rs : List RawRecord) :
    load_data ⟨none, none⟩ = [] ∧
    load_data ⟨some CsvFile.malformed, g⟩ = [] ∧
    load_data ⟨none, some CsvFile.malformed⟩ = [] ∧
    load_data ⟨some (CsvFile.rows rs), g⟩ = (rs.mapM processRow).getD [] ∧
    load_data ⟨none, some (CsvFile.rows rs)⟩ = (rs.mapM processRow).getD [] := by
  refine ⟨rfl, rfl, rfl, ?_, ?_⟩ <;>
    cases h : rs.mapM processRow <;>
      simp only [load_data, readCandidates, h, Option.getD_none, Option.getD_some]
